import Mathlib

/-!
Shallow embedding of fetch_data.py (Stock-dashboard): the quote fetcher
get_stock_data, the report builder create_dashboard with its display
formatting (format_number, change sign/class, moving averages), and the
persistence step of the driver loop.  Numeric values are modelled as ℚ,
provider responses as explicit inputs, failures of the external collaborator
as an Except value threaded through the builder.
-/

namespace StockDashboard

/-- Round the fraction n / d (with d > 0) to the nearest integer, ties to
even: the rounding used by Python string formatting (format specs ".0f" and
".2f").  Implemented on the numerator and denominator so that it evaluates
by kernel reduction. -/
def roundHalfEvenFrac (n d : ℤ) : ℤ :=
  let f : ℤ := n.fdiv d
  let rem : ℤ := n - f * d
  if 2 * rem < d then f
  else if d < 2 * rem then f + 1
  else if f % 2 = 0 then f else f + 1

/-- Round a rational to the nearest integer, ties to even. -/
def roundHalfEven (q : ℚ) : ℤ :=
  roundHalfEvenFrac q.num q.den

/-- Two-digit zero-padded rendering of a natural number below 100. -/
def pad2 (n : ℕ) : String :=
  if n < 10 then "0" ++ toString n else toString n

/-- Rendering of the rational q / scale with exactly two decimal places, as
Python f-string formatting with ".2f" renders num/scale: round-half-even of
q * 100 / scale, then digits with an embedded decimal point.  The scaled
rational is handled as the integer fraction (q.num * 100, q.den * scale) so
that it evaluates by kernel reduction. -/
def fmt2Scaled (q : ℚ) (scale : ℕ) : String :=
  let n : ℤ := roundHalfEvenFrac (q.num * 100) (q.den * scale)
  (if n < 0 then "-" else "") ++ toString (n.natAbs / 100) ++ "." ++ pad2 (n.natAbs % 100)

/-- Rendering of a rational with exactly two decimal places (Python format
spec ".2f"). -/
def fmt2 (q : ℚ) : String :=
  fmt2Scaled q 1

/-- Insert a comma after every three characters, used on the reversed digit
list of an integer (thousands grouping of Python format spec ","). -/
def group3 : List Char → List Char
  | a :: b :: c :: d :: rest => a :: b :: c :: ',' :: group3 (d :: rest)
  | l => l

/-- Comma-grouped decimal rendering of an integer (Python format spec ","). -/
def intComma (n : ℤ) : String :=
  (if n < 0 then "-" else "") ++ String.mk (group3 (toString n.natAbs).toList.reverse).reverse

/-- The helper format_number defined inside create_dashboard
(fetch_data.py lines 146-154): suffixes T/B/M at the inclusive thresholds
1e12/1e9/1e6 with two decimals of the scaled value, otherwise a
comma-grouped rounded integer (Python format spec ",.0f"). -/
def format_number (num : ℚ) : String :=
  if (1000000000000 : ℚ) ≤ num then "$" ++ fmt2Scaled num 1000000000000 ++ "T"
  else if (1000000000 : ℚ) ≤ num then "$" ++ fmt2Scaled num 1000000000 ++ "B"
  else if (1000000 : ℚ) ≤ num then "$" ++ fmt2Scaled num 1000000 ++ "M"
  else "$" ++ intComma (roundHalfEven num)

/-- One historical bar of the price series returned by the market-data
collaborator (a row of the yfinance history DataFrame). -/
structure PricePoint where
  openPrice : ℚ
  high : ℚ
  low : ℚ
  close : ℚ
  volume : ℚ
deriving DecidableEq

/-- The trailing simple moving average of window w, as computed by the
pandas call rolling(window=w).mean() on a column (fetch_data.py lines
20-21): entry i is the mean of the w values ending at i, and is absent
while fewer than w values exist. -/
def rolling_mean (w : ℕ) (xs : List ℚ) : List (Option ℚ) :=
  (List.range xs.length).map (fun i =>
    if w ≤ i + 1 then some (((xs.take (i + 1)).drop (i + 1 - w)).sum / w) else none)

/-- The history DataFrame after get_stock_data added the MA20 and MA50
columns: the fetched points plus the two derived columns. -/
structure Hist where
  points : List PricePoint
  ma20 : List (Option ℚ)
  ma50 : List (Option ℚ)
deriving DecidableEq

/-- A provider snapshot (stock.info): a finite mapping from field names to
numeric values, modelled as an association list. -/
abbrev Info : Type := List (String × ℚ)

/-- Python dict.get(key, default) on an Info mapping. -/
def dictGet (info : Info) (key : String) (dflt : ℚ) : ℚ :=
  match List.lookup key info with
  | some v => v
  | none => dflt

/-- The current_data dict built by get_stock_data (fetch_data.py lines
26-35). -/
structure CurrentData where
  price : ℚ
  change : ℚ
  change_pct : ℚ
  volume : ℚ
  market_cap : ℚ
  pe_ratio : ℚ
  day_high : ℚ
  day_low : ℚ
deriving DecidableEq

/-- get_stock_data (fetch_data.py lines 12-37), with the two collaborator
responses (the history rows and the info mapping) passed in explicitly: it
adds the MA20/MA50 columns to the history and builds the current_data dict
from the info mapping, each field defaulting to zero when absent, the price
falling back from currentPrice to regularMarketPrice to zero. -/
def get_stock_data (history : List PricePoint) (info : Info) : Hist × CurrentData :=
  ({ points := history
     ma20 := rolling_mean 20 (history.map PricePoint.close)
     ma50 := rolling_mean 50 (history.map PricePoint.close) },
   { price := dictGet info "currentPrice" (dictGet info "regularMarketPrice" 0)
     change := dictGet info "regularMarketChange" 0
     change_pct := dictGet info "regularMarketChangePercent" 0
     volume := dictGet info "volume" 0
     market_cap := dictGet info "marketCap" 0
     pe_ratio := dictGet info "trailingPE" 0
     day_high := dictGet info "dayHigh" 0
     day_low := dictGet info "dayLow" 0 })

/-- The CSS class chosen for the change line (fetch_data.py line 142):
positive when change is at or above zero, negative otherwise. -/
def change_class (change : ℚ) : String :=
  if change ≥ 0 then "positive" else "negative"

/-- The sign glyph prepended to the change amount and to the percent
(fetch_data.py line 143): a plus when change is at or above zero, nothing
otherwise.  It is a function of change only. -/
def change_sign (change : ℚ) : String :=
  if change ≥ 0 then "+" else ""

/-- The change line of a summary card (fetch_data.py line 161): the sign
glyph, the change amount to two decimals, and the percent to two decimals
behind the same glyph. -/
def render_change (change change_pct : ℚ) : String :=
  change_sign change ++ "$" ++ fmt2 change ++ " (" ++ change_sign change ++ fmt2 change_pct ++ "%)"

/-- One summary card (fetch_data.py lines 156-177): ticker name, price,
change line, volume, market cap, day range and P/E ratio, each formatted as
in the source f-string. -/
def renderCard (ticker : String) (cur : CurrentData) : String :=
  "<div class=\"card\"><div class=\"stock-name\">" ++ ticker ++
  "</div><div class=\"price\">$" ++ fmt2 cur.price ++
  "</div><div class=\"change " ++ change_class cur.change ++ "\">" ++
  render_change cur.change cur.change_pct ++
  "</div><div class=\"stats\"><div><span class=\"stat-label\">Volume:</span></div><div class=\"stat-value\">" ++
  intComma (roundHalfEven cur.volume) ++
  "</div><div><span class=\"stat-label\">Market Cap:</span></div><div class=\"stat-value\">" ++
  format_number cur.market_cap ++
  "</div><div><span class=\"stat-label\">Day Range:</span></div><div class=\"stat-value\">$" ++
  fmt2 cur.day_low ++ " - $" ++ fmt2 cur.day_high ++
  "</div><div><span class=\"stat-label\">P/E Ratio:</span></div><div class=\"stat-value\">" ++
  fmt2 cur.pe_ratio ++ "</div></div></div>"

/-- Modelled from the spec: the error taxonomy of the fetch contract
(DataUnavailable for a symbol with no data, TransientFetchError for
network/timeout conditions).  The source defines no error types of its own:
a failing fetch is an exception raised inside the collaborator that
propagates uncaught, modelled here as a value of this type carried by
Except. -/
inductive FetchError where
  | DataUnavailable : FetchError
  | TransientFetchError : FetchError
deriving DecidableEq

/-- The fetch operation as create_dashboard sees it: each call to
get_stock_data either returns the pair or raises. -/
abbrev Fetch : Type := String → Except FetchError (Hist × CurrentData)

/-- The card loop of create_dashboard (fetch_data.py lines 139-177): one
fetch per ticker, in order, concatenating one card per ticker; an exception
aborts the loop at the failing ticker.  Returns the list of tickers whose
fetch was invoked together with the outcome. -/
def buildCards (fetch : Fetch) : List String → List String × Except FetchError String
  | [] => ([], Except.ok "")
  | t :: ts =>
    match fetch t with
    | Except.error e => ([t], Except.error e)
    | Except.ok (_, cur) =>
      let r := buildCards fetch ts
      (t :: r.1, r.2.map (fun rest => renderCard t cur ++ rest))

/-- One chart block (fetch_data.py lines 239-243): the collaborator-rendered
chart markup wrapped in its container div. -/
def renderChartBlock (chartHtml : String) : String :=
  "<div class=\"chart-container\">" ++ chartHtml ++ "</div>"

/-- The chart loop of create_dashboard (fetch_data.py lines 184-243): a
second fetch per ticker, in order, concatenating one chart block per ticker
built by the rendering collaborator rc from the ticker and its history; an
exception aborts the loop at the failing ticker. -/
def buildCharts (fetch : Fetch) (rc : String → Hist → String) :
    List String → List String × Except FetchError String
  | [] => ([], Except.ok "")
  | t :: ts =>
    match fetch t with
    | Except.error e => ([t], Except.error e)
    | Except.ok (h, _) =>
      let r := buildCharts fetch rc ts
      (t :: r.1, r.2.map (fun rest => renderChartBlock (rc t h) ++ rest))

/-- The static page header of create_dashboard (fetch_data.py lines 44-136);
the CSS text between the style tags is abbreviated to a placeholder, no
claim concerns its content. -/
def htmlHeader : String :=
  "<!DOCTYPE html><html><head><title>Stock Dashboard</title><style>CSS</style></head><body><div class=\"container\"><h1>Live Stock Dashboard</h1><div class=\"subtitle\">Real-time market data and analysis</div><div class=\"cards\">"

/-- The closing tag after the cards grid (fetch_data.py lines 179-181). -/
def cardsClose : String := "</div>"

/-- The footer up to the embedded timestamp (fetch_data.py lines 247-249). -/
def footerA : String := "<div class=\"update-time\">Last updated: "

/-- The footer after the embedded timestamp (fetch_data.py lines 249-254). -/
def footerB : String := "</div></div></body></html>"

/-- create_dashboard (fetch_data.py lines 40-256): header, the card loop,
the chart loop, and the footer with the generation timestamp now.  The first
component records which fetch calls were made (one log entry per invocation
of get_stock_data, in order); the second is the outcome: the full HTML page,
or the first uncaught fetch exception. -/
def create_dashboard (fetch : Fetch) (rc : String → Hist → String)
    (tickers : List String) (now : String) : List String × Except FetchError String :=
  let c := buildCards fetch tickers
  match c.2 with
  | Except.error e => (c.1, Except.error e)
  | Except.ok cardsHtml =>
    let ch := buildCharts fetch rc tickers
    match ch.2 with
    | Except.error e => (c.1 ++ ch.1, Except.error e)
    | Except.ok chartsHtml =>
      (c.1 ++ ch.1,
       Except.ok (htmlHeader ++ cardsHtml ++ cardsClose ++ chartsHtml ++ footerA ++ now ++ footerB))

/-- The persistence step of the driver (fetch_data.py lines 272-273 and
288-289): Python open(path, "w") truncates the file in place at open and the
content is then written into it.  The list is the sequence of observable
file contents: the previous content, the truncated (empty) file after open,
and the fully written new content. -/
def writeStates (oldContent newContent : String) : List String :=
  [oldContent, "", newContent]

/-- Concrete fetch result used by the concrete-input theorems below: the
fetcher applied to an empty provider response. -/
def sampleData : Hist × CurrentData := get_stock_data [] []

/-- A fetch that succeeds for every ticker. -/
def sampleFetch : Fetch := fun _ => Except.ok sampleData

/-- A fetch that raises for ticker B and succeeds for every other ticker. -/
def failB : Fetch := fun t =>
  if t = "B" then Except.error FetchError.DataUnavailable else Except.ok sampleData

/-- A fixed rendering collaborator for the concrete-input theorems. -/
def sampleChart : String → Hist → String := fun _ _ => "CHART"

theorem rolling_mean_length (w : ℕ) (xs : List ℚ) :
    (rolling_mean w xs).length = xs.length := by
  simp [rolling_mean]

theorem rolling_mean_getElem (w : ℕ) (xs : List ℚ) (i : ℕ) (h : i < xs.length) :
    (rolling_mean w xs)[i]? =
      some (if w ≤ i + 1 then some (((xs.take (i + 1)).drop (i + 1 - w)).sum / (w : ℚ)) else none) := by
  simp [rolling_mean, List.getElem?_map, List.getElem?_range, h]

theorem ma20_of_get_stock_data (history : List PricePoint) (info : Info) :
    (get_stock_data history info).1.ma20 = rolling_mean 20 (history.map PricePoint.close) := rfl

theorem ma50_of_get_stock_data (history : List PricePoint) (info : Info) :
    (get_stock_data history info).1.ma50 = rolling_mean 50 (history.map PricePoint.close) := rfl

theorem rolling_mean_entry_absent (w : ℕ) (xs : List ℚ) (i : ℕ)
    (hi : i < xs.length) (hw : i + 1 < w) :
    (rolling_mean w xs)[i]? = some none := by
  rw [rolling_mean_getElem w xs i hi, if_neg (by omega)]

theorem rolling_mean_entry_mean (w : ℕ) (xs : List ℚ) (i : ℕ)
    (hi : i < xs.length) (hw : w ≤ i + 1) :
    (rolling_mean w xs)[i]? =
      some (some (((xs.take (i + 1)).drop (i + 1 - w)).sum / (w : ℚ))) := by
  rw [rolling_mean_getElem w xs i hi, if_pos hw]

/-- C3: for every non-empty price series, the derived MA20 column has the
same length as the series, its entries at index below 19 are absent, and its
entry at index i at or above 19 is the mean of close over the window of the
20 indices ending at i; correspondingly for MA50 with window 50 and first 49
entries absent. -/
theorem ma_window_alignment (history : List PricePoint) (info : Info)
    (hne : history ≠ []) :
    ((get_stock_data history info).1.ma20.length = history.length ∧
      (∀ i, i < history.length → i < 19 →
        (get_stock_data history info).1.ma20[i]? = some none) ∧
      (∀ i, 19 ≤ i → i < history.length →
        (get_stock_data history info).1.ma20[i]? =
          some (some ((((history.map PricePoint.close).take (i + 1)).drop (i - 19)).sum / 20)))) ∧
    ((get_stock_data history info).1.ma50.length = history.length ∧
      (∀ i, i < history.length → i < 49 →
        (get_stock_data history info).1.ma50[i]? = some none) ∧
      (∀ i, 49 ≤ i → i < history.length →
        (get_stock_data history info).1.ma50[i]? =
          some (some ((((history.map PricePoint.close).take (i + 1)).drop (i - 49)).sum / 50)))) := by
  rw [ma20_of_get_stock_data, ma50_of_get_stock_data]
  refine ⟨⟨?_, ?_, ?_⟩, ?_, ?_, ?_⟩
  · rw [rolling_mean_length, List.length_map]
  · intro i h1 h2
    exact rolling_mean_entry_absent 20 _ i (by simpa using h1) (by omega)
  · intro i h1 h2
    have e : i + 1 - 20 = i - 19 := by omega
    have := rolling_mean_entry_mean 20 (history.map PricePoint.close) i (by simpa using h2) (by omega)
    rw [this, e]
    norm_num
  · rw [rolling_mean_length, List.length_map]
  · intro i h1 h2
    exact rolling_mean_entry_absent 50 _ i (by simpa using h1) (by omega)
  · intro i h1 h2
    have e : i + 1 - 50 = i - 49 := by omega
    have := rolling_mean_entry_mean 50 (history.map PricePoint.close) i (by simpa using h2) (by omega)
    rw [this, e]
    norm_num

/-- A sample bar used to instantiate the moving-average theorem. -/
def samplePoint : PricePoint := ⟨0, 0, 0, 0, 0⟩

/-- Witness for C3: on a one-bar series the MA20 column has length one and
its only entry is absent. -/
theorem ma_window_alignment_witness :
    (get_stock_data [samplePoint] []).1.ma20.length = 1 ∧
    (get_stock_data [samplePoint] []).1.ma20[0]? = some none := by
  have h := ma_window_alignment [samplePoint] [] (by simp)
  exact ⟨by rw [h.1.1]; rfl, h.1.2.1 0 (by norm_num) (by norm_num)⟩

/-- C4: format_number abbreviates with suffixes T/B/M at the thresholds
1e12/1e9/1e6 with two decimal places and falls back to a plain comma-grouped
integer below 1e6: the four spec examples evaluate as stated. -/
theorem format_number_magnitudes :
    format_number 2500000000000 = "$2.50T" ∧
    format_number 3400000000 = "$3.40B" ∧
    format_number 750000 = "$750,000" ∧
    format_number 999 = "$999" := by
  refine ⟨by decide, by decide, by decide, by decide⟩

/-- C9: the thresholds of format_number are inclusive, so the exact powers
take the suffix branch, and every input strictly below 1e6 (zero and
negative values included) takes the plain comma-grouped branch with no
suffix. -/
theorem format_number_thresholds_inclusive :
    format_number 1000000 = "$1.00M" ∧
    format_number 1000000000 = "$1.00B" ∧
    format_number 1000000000000 = "$1.00T" ∧
    ∀ q : ℚ, q < 1000000 → format_number q = "$" ++ intComma (roundHalfEven q) := by
  refine ⟨by decide, by decide, by decide, ?_⟩
  intro q hq
  rw [format_number, if_neg (by intro hc; linarith), if_neg (by intro hc; linarith),
    if_neg (by intro hc; linarith)]

/-- Witness for C9: a negative input takes the plain branch and renders as a
comma-grouped signed integer. -/
theorem format_number_thresholds_inclusive_witness :
    format_number (-1234 : ℚ) = "$-1,234" := by
  rw [format_number_thresholds_inclusive.2.2.2 (-1234 : ℚ) (by norm_num)]
  decide

theorem buildCards_all_ok (fetch : Fetch) (ts : List String)
    (h : ∀ t ∈ ts, ∃ r, fetch t = Except.ok r) :
    (buildCards fetch ts).1 = ts ∧ ∃ s, (buildCards fetch ts).2 = Except.ok s := by
  induction ts with
  | nil => exact ⟨rfl, "", rfl⟩
  | cons t ts ih =>
    obtain ⟨⟨hist, cur⟩, hr⟩ := h t (List.mem_cons_self t ts)
    obtain ⟨h1, s, h2⟩ := ih (fun u hu => h u (List.mem_cons_of_mem t hu))
    refine ⟨?_, renderCard t cur ++ s, ?_⟩ <;> simp [buildCards, Except.map, hr, h1, h2]

theorem buildCharts_all_ok (fetch : Fetch) (rc : String → Hist → String) (ts : List String)
    (h : ∀ t ∈ ts, ∃ r, fetch t = Except.ok r) :
    (buildCharts fetch rc ts).1 = ts ∧ ∃ s, (buildCharts fetch rc ts).2 = Except.ok s := by
  induction ts with
  | nil => exact ⟨rfl, "", rfl⟩
  | cons t ts ih =>
    obtain ⟨⟨hist, cur⟩, hr⟩ := h t (List.mem_cons_self t ts)
    obtain ⟨h1, s, h2⟩ := ih (fun u hu => h u (List.mem_cons_of_mem t hu))
    refine ⟨?_, renderChartBlock (rc t hist) ++ s, ?_⟩ <;> simp [buildCharts, Except.map, hr, h1, h2]

theorem buildCards_has_error (fetch : Fetch) (ts : List String)
    (h : ∃ t ∈ ts, ∃ e, fetch t = Except.error e) :
    ∃ e, (buildCards fetch ts).2 = Except.error e := by
  induction ts with
  | nil => simp at h
  | cons t ts ih =>
    cases hf : fetch t with
    | error e => exact ⟨e, by simp [buildCards, hf]⟩
    | ok r =>
      obtain ⟨hist, cur⟩ := r
      obtain ⟨u, hu, e, he⟩ := h
      rcases List.mem_cons.mp hu with rfl | hu2
      · rw [hf] at he; exact absurd he (by simp)
      · obtain ⟨e2, he2⟩ := ih ⟨u, hu2, e, he⟩
        exact ⟨e2, by simp [buildCards, Except.map, hf, he2]⟩

/-- C1 counterexample: with two tickers of which only the fetch of B fails,
create_dashboard does not produce a report at all: the failure propagates
and the outcome is the error itself. -/
theorem single_failure_aborts_build_cex :
    (create_dashboard failB sampleChart ["A", "B"] "now").2 =
      Except.error FetchError.DataUnavailable := rfl

/-- C1 (amended): a single ticker fetch failure anywhere in the list aborts
the whole build: create_dashboard returns the propagated error, producing no
report and no diagnostics. -/
theorem single_failure_aborts_build (fetch : Fetch) (rc : String → Hist → String)
    (tickers : List String) (now : String)
    (h : ∃ t ∈ tickers, ∃ e, fetch t = Except.error e) :
    ∃ e, (create_dashboard fetch rc tickers now).2 = Except.error e := by
  obtain ⟨e, hc⟩ := buildCards_has_error fetch tickers h
  exact ⟨e, by simp [create_dashboard, hc]⟩

/-- Witness for C1 (amended): the failing pair of tickers from the
counterexample instantiates the abort theorem. -/
theorem single_failure_aborts_build_witness :
    ∃ e, (create_dashboard failB sampleChart ["A", "B"] "now").2 = Except.error e :=
  single_failure_aborts_build failB sampleChart ["A", "B"] "now"
    ⟨"B", by simp, FetchError.DataUnavailable, rfl⟩

/-- C2 counterexample: with the single ticker AAPL and an always-succeeding
fetch, the build invokes get_stock_data twice, not once per ticker. -/
theorem fetch_called_twice_cex :
    (create_dashboard sampleFetch sampleChart ["AAPL"] "now").1 = ["AAPL", "AAPL"] ∧
    (["AAPL", "AAPL"] : List String) ≠ ["AAPL"] :=
  ⟨rfl, by simp⟩

/-- C2 (amended): when every fetch succeeds, create_dashboard invokes
get_stock_data exactly twice per ticker — the whole list once for the card
loop and once again for the chart loop — so four collaborator round trips
per ticker, the card and the chart of a ticker coming from two separate
fetches. -/
theorem fetch_called_twice_per_ticker (fetch : Fetch) (rc : String → Hist → String)
    (tickers : List String) (now : String)
    (h : ∀ t ∈ tickers, ∃ r, fetch t = Except.ok r) :
    (create_dashboard fetch rc tickers now).1 = tickers ++ tickers := by
  obtain ⟨h1, s, h2⟩ := buildCards_all_ok fetch tickers h
  obtain ⟨h3, s2, h4⟩ := buildCharts_all_ok fetch rc tickers h
  simp [create_dashboard, h2, h4, h1, h3]

/-- Witness for C2 (amended): one ticker, all fetches succeeding, gives the
call log of the ticker list twice. -/
theorem fetch_called_twice_per_ticker_witness :
    (create_dashboard sampleFetch sampleChart ["AAPL"] "now").1 = ["AAPL"] ++ ["AAPL"] :=
  fetch_called_twice_per_ticker sampleFetch sampleChart ["AAPL"] "now"
    (fun _ _ => ⟨sampleData, rfl⟩)

/-- C8: for a fixed fetch outcome and rendering collaborator, the built page
is a function of the upstream data alone apart from the embedded generation
timestamp: either every run fails with the same error, or every run yields
the same bytes around the timestamp slot. -/
theorem dashboard_deterministic_mod_clock (fetch : Fetch) (rc : String → Hist → String)
    (tickers : List String) :
    (∃ e, ∀ now, (create_dashboard fetch rc tickers now).2 = Except.error e) ∨
    (∃ pre post, ∀ now, (create_dashboard fetch rc tickers now).2 =
      Except.ok (pre ++ now ++ post)) := by
  cases hc : (buildCards fetch tickers).2 with
  | error e => exact Or.inl ⟨e, fun now => by simp [create_dashboard, hc]⟩
  | ok cardsHtml =>
    cases hch : (buildCharts fetch rc tickers).2 with
    | error e => exact Or.inl ⟨e, fun now => by simp [create_dashboard, hc, hch]⟩
    | ok chartsHtml =>
      exact Or.inr ⟨htmlHeader ++ cardsHtml ++ cardsClose ++ chartsHtml ++ footerA, footerB,
        fun now => by simp [create_dashboard, hc, hch]⟩

/-- C5: the gain/loss class and the sign glyph are both decided by the sign
of change: change at or above zero is classified positive and rendered with
a plus glyph (zero counts as gain), and the rendered text surrounding the
percent value is a function of change alone, so the sign of the percent
influences neither the classification nor the glyph. -/
theorem gain_sign_follows_change :
    (∀ change pct : ℚ, change ≥ 0 →
      change_class change = "positive" ∧
      ∃ r, render_change change pct = "+" ++ r) ∧
    (∀ change pct1 pct2 : ℚ, ∃ pre,
      render_change change pct1 = pre ++ (fmt2 pct1 ++ "%)") ∧
      render_change change pct2 = pre ++ (fmt2 pct2 ++ "%)")) := by
  constructor
  · intro change pct h
    refine ⟨by simp [change_class, h], "$" ++ fmt2 change ++ " (" ++ "+" ++ fmt2 pct ++ "%)", ?_⟩
    simp [render_change, change_sign, h, String.append_assoc]
    rw [show ("+$" : String) = "+" ++ "$" from rfl, String.append_assoc]
  · intro change pct1 pct2
    exact ⟨change_sign change ++ "$" ++ fmt2 change ++ " (" ++ change_sign change,
      by simp [render_change, String.append_assoc], by simp [render_change, String.append_assoc]⟩

/-- Witness for C5: a quote with change zero and percent minus one hundredth
is classified positive and rendered with a leading plus. -/
theorem gain_sign_follows_change_witness :
    change_class 0 = "positive" ∧ ∃ r, render_change 0 (mkRat (-1) 100) = "+" ++ r :=
  gain_sign_follows_change.1 0 (mkRat (-1) 100) (le_refl 0)

/-- C6 counterexample: for a ticker whose provider response carries no
series and no snapshot fields, the fetch does not fail: get_stock_data
returns normally with the empty series, empty MA columns and an all-zero
quote — exactly the empty, zero-filled result the claim rules out. -/
theorem fetch_no_data_cex :
    get_stock_data [] [] = (⟨[], [], []⟩, ⟨0, 0, 0, 0, 0, 0, 0, 0⟩) := rfl

/-- C6 (amended): when the upstream provider returns no series the fetch
does not raise: it returns the empty series with empty derived columns, the
quote fields defaulting per the info mapping; the source defines no
DataUnavailable or TransientFetchError, and collaborator exceptions would
propagate untyped. -/
theorem fetch_no_data_returns_empty (info : Info) :
    (get_stock_data [] info).1.points = [] ∧
    (get_stock_data [] info).1.ma20 = [] ∧
    (get_stock_data [] info).1.ma50 = [] :=
  ⟨rfl, rfl, rfl⟩

/-- C7 counterexample: re-writing the report over a previous one exposes the
truncated empty file as an observable state that is neither the old nor the
new content, so the replacement is not atomic. -/
theorem write_truncates_cex :
    "" ∈ writeStates "previous report" "new report" ∧
    "" ≠ "previous report" ∧ "" ≠ "new report" :=
  ⟨by simp [writeStates], by decide, by decide⟩

/-- C7 (amended): the persistence step is not atomic: for any non-empty old
and new contents a reader can observe an intermediate state (the truncated
empty file) differing from both; an uninterrupted write does end with the
full new content as the final state. -/
theorem write_not_atomic (oldContent newContent : String)
    (h1 : oldContent ≠ "") (h2 : newContent ≠ "") :
    (∃ s ∈ writeStates oldContent newContent, s ≠ oldContent ∧ s ≠ newContent) ∧
    (writeStates oldContent newContent).getLast? = some newContent :=
  ⟨⟨"", by simp [writeStates], fun hc => h1 hc.symm, fun hc => h2 hc.symm⟩, rfl⟩

/-- Witness for C7 (amended): instantiation at concrete old and new report
contents. -/
theorem write_not_atomic_witness :
    (∃ s ∈ writeStates "old content" "new content",
      s ≠ "old content" ∧ s ≠ "new content") ∧
    (writeStates "old content" "new content").getLast? = some "new content" :=
  write_not_atomic "old content" "new content" (by decide) (by decide)

/-- C10: the quote price falls back from currentPrice to regularMarketPrice
to zero, and every other quote field falls back directly from its single
provider key to zero when the key is absent. -/
theorem quote_field_fallbacks (history : List PricePoint) (info : Info) :
    (∀ v, List.lookup "currentPrice" info = some v →
      (get_stock_data history info).2.price = v) ∧
    (List.lookup "currentPrice" info = none →
      ∀ v, List.lookup "regularMarketPrice" info = some v →
        (get_stock_data history info).2.price = v) ∧
    (List.lookup "currentPrice" info = none →
      List.lookup "regularMarketPrice" info = none →
      (get_stock_data history info).2.price = 0) ∧
    (∀ v, List.lookup "regularMarketChange" info = some v →
      (get_stock_data history info).2.change = v) ∧
    (List.lookup "regularMarketChange" info = none →
      (get_stock_data history info).2.change = 0) ∧
    (∀ v, List.lookup "regularMarketChangePercent" info = some v →
      (get_stock_data history info).2.change_pct = v) ∧
    (List.lookup "regularMarketChangePercent" info = none →
      (get_stock_data history info).2.change_pct = 0) ∧
    (∀ v, List.lookup "volume" info = some v →
      (get_stock_data history info).2.volume = v) ∧
    (List.lookup "volume" info = none →
      (get_stock_data history info).2.volume = 0) ∧
    (∀ v, List.lookup "marketCap" info = some v →
      (get_stock_data history info).2.market_cap = v) ∧
    (List.lookup "marketCap" info = none →
      (get_stock_data history info).2.market_cap = 0) ∧
    (∀ v, List.lookup "trailingPE" info = some v →
      (get_stock_data history info).2.pe_ratio = v) ∧
    (List.lookup "trailingPE" info = none →
      (get_stock_data history info).2.pe_ratio = 0) ∧
    (∀ v, List.lookup "dayHigh" info = some v →
      (get_stock_data history info).2.day_high = v) ∧
    (List.lookup "dayHigh" info = none →
      (get_stock_data history info).2.day_high = 0) ∧
    (∀ v, List.lookup "dayLow" info = some v →
      (get_stock_data history info).2.day_low = v) ∧
    (List.lookup "dayLow" info = none →
      (get_stock_data history info).2.day_low = 0) := by
  refine ⟨?_, ?_, ?_, ?_, ?_, ?_, ?_, ?_, ?_, ?_, ?_, ?_, ?_, ?_, ?_, ?_, ?_⟩ <;>
    intros <;> simp [get_stock_data, dictGet, *]

/-- A snapshot carrying only regularMarketPrice and volume, used to
instantiate the fallback theorem. -/
def sampleInfo : Info := [("regularMarketPrice", (42 : ℚ)), ("volume", (7 : ℚ))]

/-- Witness for C10: with only regularMarketPrice and volume present, the
price falls back to regularMarketPrice, volume is taken directly, and the
absent change field defaults to zero. -/
theorem quote_field_fallbacks_witness :
    (get_stock_data [] sampleInfo).2.price = 42 ∧
    (get_stock_data [] sampleInfo).2.volume = 7 ∧
    (get_stock_data [] sampleInfo).2.change = 0 := by
  obtain ⟨p1, p2, p3, c1, c0, pc1, pc0, v1, v0, m1, m0, pe1, pe0, dh1, dh0, dl1, dl0⟩ :=
    quote_field_fallbacks [] sampleInfo
  exact ⟨p2 (by decide) 42 (by decide), v1 7 (by decide), c0 (by decide)⟩

end StockDashboard
